import Mathlib

/-!
Shallow embedding of the authorization gate in
src/static-site/cloudfunction_auth_example.js.

The three components of the gate are embedded as pure Lean functions:

* getUserFromRequest : the Identity Resolver.  Its JS original consults
  two external collaborators, the trusted-context accessor
  (cloud.getWXContext()) and the token verifier
  (cloud.auth().verifyAccessToken).  Both are passed in as explicit
  parameters; a call that may throw is modelled as a value of
  Except Unit _, an .error standing for a thrown/rejected promise,
  and JS null/undefined results as Option.

* isUserAuthorized : the Authorization Checker.  The durable store is
  modelled by the contents of the authorized_users collection
  (a list of records) together with a flag storeOk saying whether the
  .get() query operation succeeds; storeOk = false models the query
  throwing (connectivity, timeout, ...).

* checkAuthorization : the Authorization Gate, combining the two.

JS strings are modelled as Lean String; a JS falsy string value
(undefined / null / "") is modelled as Option String where the code
distinguishes absence, and as "" where the code only tests truthiness.
-/

/-- A header map, as the JS object event.headers: ordered key/value
pairs with exact (case-sensitive) property lookup. -/
def Headers := List (String × String)

/-- A cloud-function event; event.headers may be absent (undefined). -/
structure Event where
  headers : Option Headers

/-- The trusted platform context returned by cloud.getWXContext();
a falsy OPENID field is modelled as "". -/
structure WxContext where
  OPENID : String
  APPID : String

/-- The token verifier result object: authResult as returned by
cloud.auth().verifyAccessToken.  Falsy openid/uid fields are "". -/
structure AuthRes where
  openid : String
  uid : String
  appid : String

/-- The user object built by getUserFromRequest. -/
structure Identity where
  openid : String
  uid : String
  appid : String
deriving DecidableEq, Repr

/-- A record of the authorized_users collection in the durable store. -/
structure DbRec where
  openid : String
  status : String
deriving DecidableEq, Repr

/-- The verdict object returned by checkAuthorization:
authorized/user/error as in the JS source. -/
structure Verdict where
  authorized : Bool
  user : Option Identity
  error : Option String
deriving DecidableEq, Repr

/-- JS exact-key property lookup on a header object. -/
def lookupHeader (hs : Headers) (k : String) : Option String :=
  (hs.find? (fun p => p.1 == k)).map (fun p => p.2)

/-- JS a || b for a string-or-undefined a and default b: the first
operand wins unless it is absent or empty (falsy). -/
def jsOrStr (a : Option String) (b : String) : String :=
  match a with
  | some s => if s = "" then b else s
  | none => b

/-- JS prefix test, modelled on the character list of the string. -/
def strStartsWith (s p : String) : Bool :=
  p.data.isPrefixOf s.data

/-- JS String.substring(n), modelled on the character list. -/
def strDrop (s : String) (n : Nat) : String :=
  ⟨s.data.drop n⟩

/-- The expression headers['authorization'] || headers['Authorization'] || ''
of the source, applied to event.headers || {}. -/
def authHeaderOf (e : Event) : String :=
  let hs := e.headers.getD []
  jsOrStr (lookupHeader hs ("authorization"))
    (jsOrStr (lookupHeader hs ("Authorization")) (""))

/-- The static allow-list AUTHORIZED_USERS of the source. -/
def AUTHORIZED_USERS : List String :=
  ["oXXXXX1", "oXXXXX2"]

/-- The Authorization-header branch of getUserFromRequest (source
lines 49-72): parse the header value, require the Bearer prefix, pass
the remainder to the token verifier, and build the user object from a
truthy authResult.openid; a thrown verification error is caught
(inner try) and yields null, as does a falsy result or openid.

verifyAccessToken models cloud.auth().verifyAccessToken: .error () if
the call throws/rejects, .ok none for a falsy authResult,
.ok (some r) otherwise. -/
def headerIdentity (verifyAccessToken : String → Except Unit (Option AuthRes))
    (event : Event) : Option Identity :=
  let authHeader := authHeaderOf event
  if strStartsWith authHeader ("Bearer ") then
    match verifyAccessToken (strDrop authHeader 7) with
    | .error _ => none
    | .ok none => none
    | .ok (some r) =>
      if r.openid ≠ "" then
        some ⟨r.openid, (if r.uid = "" then r.openid else r.uid), r.appid⟩
      else none
  else none

/-- getUserFromRequest(event): resolve a caller identity.

wxRes models cloud.getWXContext(): .error () if the accessor throws
(caught by the outer try, yielding null), .ok none for a falsy
context, .ok (some wx) for a context object.  A truthy
wxContext.OPENID short-circuits; otherwise the header branch runs. -/
def getUserFromRequest (wxRes : Except Unit (Option WxContext))
    (verifyAccessToken : String → Except Unit (Option AuthRes))
    (event : Event) : Option Identity :=
  match wxRes with
  | .error _ => none
  | .ok (some wx) =>
    if wx.OPENID ≠ "" then some ⟨wx.OPENID, wx.OPENID, wx.APPID⟩
    else headerIdentity verifyAccessToken event
  | .ok none => headerIdentity verifyAccessToken event

/-- The where({openid, status:'active'}) query the source sends to the
authorized_users collection, as a filter over the collection contents. -/
def queryActive (store : List DbRec) (oid : String) : List DbRec :=
  store.filter (fun r => r.openid == oid && r.status == "active")

/-- isUserAuthorized(openid): the Authorization Checker.

store is the contents of the authorized_users collection; storeOk
models whether the .get() query operation succeeds (storeOk = false is
the query throwing, caught and answered from the static list).  The
openid argument is Option String so that a JS null argument is
representable; !openid is none or some "". -/
def isUserAuthorized (storeOk : Bool) (store : List DbRec)
    (openid : Option String) : Bool :=
  match openid with
  | none => false
  | some oid =>
    if oid = "" then false
    else if AUTHORIZED_USERS.contains oid then true
    else if storeOk then !(queryActive store oid).isEmpty
    else AUTHORIZED_USERS.contains oid

/-- The error string of the unresolved-identity verdict in the source. -/
def unresolvedMsg : String := "未获取到用户身份信息，请先完成微信登录"

/-- The error string of the not-authorized verdict in the source,
the template literal interpolating the caller openid. -/
def notAuthMsg (oid : String) : String :=
  "用户 " ++ oid ++ " 未授权访问此应用"

/-- checkAuthorization(event): the Authorization Gate. -/
def checkAuthorization (wxRes : Except Unit (Option WxContext))
    (verifyAccessToken : String → Except Unit (Option AuthRes))
    (storeOk : Bool) (store : List DbRec) (event : Event) : Verdict :=
  match getUserFromRequest wxRes verifyAccessToken event with
  | none => ⟨false, none, some unresolvedMsg⟩
  | some user =>
    if user.openid = "" then ⟨false, none, some unresolvedMsg⟩
    else if isUserAuthorized storeOk store (some user.openid) then
      ⟨true, some user, none⟩
    else ⟨false, some user, some (notAuthMsg user.openid)⟩

/-! Helper lemmas shared by the claim theorems. -/

/-- Any identity produced by the header branch has a non-empty openid,
because the source guards on a truthy authResult.openid. -/
theorem headerIdentity_openid_ne (vf : String → Except Unit (Option AuthRes))
    (e : Event) (u : Identity)
    (h : headerIdentity vf e = some u) : u.openid ≠ "" := by
  unfold headerIdentity at h
  simp only at h
  split at h
  · split at h
    · simp at h
    · simp at h
    · rename_i r
      split at h
      · rename_i hr
        cases h
        simpa using hr
      · simp at h
  · simp at h

/-- Any identity produced by the resolver has a non-empty openid. -/
theorem getUserFromRequest_openid_ne (wxRes : Except Unit (Option WxContext))
    (vf : String → Except Unit (Option AuthRes)) (e : Event) (u : Identity)
    (h : getUserFromRequest wxRes vf e = some u) : u.openid ≠ "" := by
  unfold getUserFromRequest at h
  match wxRes with
  | .error err => simp at h
  | .ok none => exact headerIdentity_openid_ne vf e u h
  | .ok (some wx) =>
    simp only at h
    split at h
    · rename_i hwx
      cases h
      simpa using hwx
    · exact headerIdentity_openid_ne vf e u h

/-- A header value without the Bearer prefix yields no identity from
the header branch. -/
theorem headerIdentity_no_bearer (vf : String → Except Unit (Option AuthRes))
    (e : Event) (hhdr : strStartsWith (authHeaderOf e) ("Bearer ") = false) :
    headerIdentity vf e = none := by
  unfold headerIdentity
  simp [hhdr]

/-- When the verifier throws on the extracted token, the header branch
yields no identity (the inner catch returns null). -/
theorem headerIdentity_verifier_error (vf : String → Except Unit (Option AuthRes))
    (e : Event) (hvf : vf (strDrop (authHeaderOf e) 7) = Except.error ()) :
    headerIdentity vf e = none := by
  unfold headerIdentity
  simp only [hvf]
  split <;> rfl

/-- The header branch depends on the event only through the computed
authorization header value. -/
theorem headerIdentity_congr (vf : String → Except Unit (Option AuthRes))
    (e e' : Event) (h : authHeaderOf e = authHeaderOf e') :
    headerIdentity vf e = headerIdentity vf e' := by
  unfold headerIdentity
  rw [h]

/-- When the trusted context yields no usable OPENID, the resolver
falls through to the header branch. -/
theorem getUserFromRequest_unusable_ctx (wxOpt : Option WxContext)
    (vf : String → Except Unit (Option AuthRes)) (e : Event)
    (hctx : ∀ w, wxOpt = some w → w.OPENID = "") :
    getUserFromRequest (.ok wxOpt) vf e = headerIdentity vf e := by
  cases wxOpt with
  | none => rfl
  | some w =>
    unfold getUserFromRequest
    simp [hctx w rfl]

/-- A resolved identity the checker rejects produces exactly the
not-authorized verdict with the interpolated message. -/
theorem checkAuthorization_denied_eq (wxRes : Except Unit (Option WxContext))
    (vf : String → Except Unit (Option AuthRes)) (storeOk : Bool)
    (store : List DbRec) (e : Event) (u : Identity)
    (hu : getUserFromRequest wxRes vf e = some u)
    (hbad : isUserAuthorized storeOk store (some u.openid) = false) :
    checkAuthorization wxRes vf storeOk store e =
      ⟨false, some u, some (notAuthMsg u.openid)⟩ := by
  unfold checkAuthorization
  rw [hu]
  simp only [getUserFromRequest_openid_ne wxRes vf e u hu, if_false, hbad]
  simp

/-- The interpolated not-authorized message determines the openid. -/
theorem notAuthMsg_inj (oid oid' : String) (hne : oid ≠ oid') :
    notAuthMsg oid ≠ notAuthMsg oid' := by
  intro heq
  apply hne
  have hd := congrArg String.data heq
  simp only [notAuthMsg, String.data_append] at hd
  exact String.ext (List.append_cancel_left (List.append_cancel_right hd))

/-! Claim theorems. -/

/-- C1: checkAuthorization returns exactly one of three verdicts: when
the resolver yields no identity, the denied verdict with null user and
the unresolved-identity message; when an identity is resolved but the
checker returns false, the denied verdict carrying that identity and
the not-authorized message; otherwise the allowed verdict carrying the
identity and a null error. -/
theorem checkAuthorization_three_verdicts (wxRes : Except Unit (Option WxContext))
    (vf : String → Except Unit (Option AuthRes)) (storeOk : Bool)
    (store : List DbRec) (e : Event) :
    (getUserFromRequest wxRes vf e = none →
      checkAuthorization wxRes vf storeOk store e =
        ⟨false, none, some unresolvedMsg⟩) ∧
    (∀ u, getUserFromRequest wxRes vf e = some u →
      isUserAuthorized storeOk store (some u.openid) = false →
      checkAuthorization wxRes vf storeOk store e =
        ⟨false, some u, some (notAuthMsg u.openid)⟩) ∧
    (∀ u, getUserFromRequest wxRes vf e = some u →
      isUserAuthorized storeOk store (some u.openid) = true →
      checkAuthorization wxRes vf storeOk store e = ⟨true, some u, none⟩) := by
  refine ⟨?_, ?_, ?_⟩
  · intro h
    unfold checkAuthorization
    rw [h]
  · intro u hu hbad
    exact checkAuthorization_denied_eq wxRes vf storeOk store e u hu hbad
  · intro u hu hok
    unfold checkAuthorization
    rw [hu]
    simp only [getUserFromRequest_openid_ne wxRes vf e u hu, if_false, hok]
    simp

/-- Witness for C1: the three verdict shapes realized on concrete
inputs (no identity; trusted identity not on any list; trusted
identity on the static list). -/
theorem checkAuthorization_three_verdicts_witness :
    checkAuthorization (.ok none) (fun _ => .error ()) true [] ⟨none⟩ =
      ⟨false, none, some unresolvedMsg⟩ ∧
    checkAuthorization (.ok (some ⟨"userC", "appC"⟩)) (fun _ => .error ()) true [] ⟨none⟩ =
      ⟨false, some ⟨"userC", "userC", "appC"⟩, some (notAuthMsg ("userC"))⟩ ∧
    checkAuthorization (.ok (some ⟨"oXXXXX1", "appA"⟩)) (fun _ => .error ()) true [] ⟨none⟩ =
      ⟨true, some ⟨"oXXXXX1", "oXXXXX1", "appA"⟩, none⟩ :=
  ⟨(checkAuthorization_three_verdicts _ _ _ _ _).1 (by decide),
   (checkAuthorization_three_verdicts _ _ _ _ _).2.1 _ (by decide) (by decide),
   (checkAuthorization_three_verdicts _ _ _ _ _).2.2 _ (by decide) (by decide)⟩

/-- C2: for every request event and every behavior of the external
collaborators, the verdict never has authorized = true with a null
user; authorized = false implies a non-null error message; and
authorized = true implies a null error and a non-null user. -/
theorem checkAuthorization_verdict_invariants (wxRes : Except Unit (Option WxContext))
    (vf : String → Except Unit (Option AuthRes)) (storeOk : Bool)
    (store : List DbRec) (e : Event) :
    ((checkAuthorization wxRes vf storeOk store e).authorized = true →
      (checkAuthorization wxRes vf storeOk store e).user ≠ none ∧
      (checkAuthorization wxRes vf storeOk store e).error = none) ∧
    ((checkAuthorization wxRes vf storeOk store e).authorized = false →
      (checkAuthorization wxRes vf storeOk store e).error ≠ none) := by
  unfold checkAuthorization
  split
  · simp
  · split
    · simp
    · split <;> simp

/-- Witness for C2: the invariants instantiated at an allowed and at a
denied concrete verdict. -/
theorem checkAuthorization_verdict_invariants_witness :
    ((checkAuthorization (.ok (some ⟨"oXXXXX1", "a"⟩)) (fun _ => .error ()) true [] ⟨none⟩).user ≠ none ∧
     (checkAuthorization (.ok (some ⟨"oXXXXX1", "a"⟩)) (fun _ => .error ()) true [] ⟨none⟩).error = none) ∧
    (checkAuthorization (.ok none) (fun _ => .error ()) true [] ⟨none⟩).error ≠ none :=
  ⟨(checkAuthorization_verdict_invariants _ _ _ _ _).1 (by decide),
   (checkAuthorization_verdict_invariants _ _ _ _ _).2 (by decide)⟩

/-- C3: for a subjectId outside the static allow-list, a failing store
query (storeOk = false) does not propagate: isUserAuthorized answers
with the static-list membership computed in step 1, which is false --
fail-closed -- whatever the store contents would have said. -/
theorem isUserAuthorized_store_error_fail_closed (store : List DbRec) (oid : String)
    (h : oid ∉ AUTHORIZED_USERS) :
    isUserAuthorized false store (some oid) = AUTHORIZED_USERS.contains oid ∧
    isUserAuthorized false store (some oid) = false := by
  have hc : AUTHORIZED_USERS.contains oid = false := by
    simpa using h
  constructor <;> · unfold isUserAuthorized; simp [hc, h]

/-- Witness for C3: the store holds an active record for userC, but the
query fails and userC is not statically listed, so the answer is false. -/
theorem isUserAuthorized_store_error_fail_closed_witness :
    isUserAuthorized false [⟨"userC", "active"⟩] (some ("userC")) = false :=
  (isUserAuthorized_store_error_fail_closed [⟨"userC", "active"⟩] ("userC") (by decide)).2

/-- C4 counterexample: the source looks up only the exact keys
'authorization' and 'Authorization'; the all-uppercase key
AUTHORIZATION carrying a valid Bearer credential resolves to no
identity, although the lowercase key with the same value and the same
verifier resolves to userB. -/
theorem uppercase_auth_key_not_matched :
    getUserFromRequest (.ok none)
      (fun t => if t = "tok1" then .ok (some ⟨"userB", "userB", "appB"⟩)
                else .error ())
      ⟨some [("AUTHORIZATION", "Bearer tok1")]⟩ = none ∧
    getUserFromRequest (.ok none)
      (fun t => if t = "tok1" then .ok (some ⟨"userB", "userB", "appB"⟩)
                else .error ())
      ⟨some [("authorization", "Bearer tok1")]⟩ =
      some ⟨"userB", "userB", "appB"⟩ := by
  constructor <;> decide

/-- C4 amended: the header lookup recognizes exactly the two spellings
'authorization' and 'Authorization'; for an event whose only header
uses the capitalized spelling, the resolver behaves identically to the
same event with the lowercase spelling, for every verifier and value. -/
theorem capitalized_auth_key_equivalent (vf : String → Except Unit (Option AuthRes))
    (v : String) :
    getUserFromRequest (.ok none) vf ⟨some [("Authorization", v)]⟩ =
      getUserFromRequest (.ok none) vf ⟨some [("authorization", v)]⟩ := by
  show headerIdentity vf _ = headerIdentity vf _
  apply headerIdentity_congr
  unfold authHeaderOf
  have h1 : lookupHeader [("Authorization", v)] ("authorization") = none := by
    unfold lookupHeader
    rw [List.find?_cons_of_neg _ (by simp)]
    rfl
  have h2 : lookupHeader [("Authorization", v)] ("Authorization") = some v := by
    unfold lookupHeader
    rw [List.find?_cons_of_pos _ (by simp)]
    rfl
  have h3 : lookupHeader [("authorization", v)] ("authorization") = some v := by
    unfold lookupHeader
    rw [List.find?_cons_of_pos _ (by simp)]
    rfl
  have h4 : lookupHeader [("authorization", v)] ("Authorization") = none := by
    unfold lookupHeader
    rw [List.find?_cons_of_neg _ (by simp)]
    rfl
  simp only [Option.getD_some, h1, h2, h3, h4]
  unfold jsOrStr
  by_cases hv : v = "" <;> simp [hv]

/-- C5 counterexample: the header value consisting of the Bearer
prefix and an empty token is not treated as absent: the verifier IS
consulted (with the empty token), and a verifier that accepts it makes
the resolver return an identity instead of null. -/
theorem bearer_empty_token_consults_verifier :
    getUserFromRequest (.ok none)
      (fun _ => .ok (some ⟨"userE", "userE", "appE"⟩))
      ⟨some [("authorization", "Bearer ")]⟩ =
      some ⟨"userE", "userE", "appE"⟩ := by
  decide

/-- C5 amended: only header values lacking the literal prefix
'Bearer ' (such as 'Token abc') are treated as absent: with no usable
trusted context the resolver returns null without consulting the
verifier (the result is the same for every verifier); a value carrying
the prefix has its entire remainder, even empty or with extra spaces,
passed to the verifier. -/
theorem no_bearer_prefix_treated_absent (wxOpt : Option WxContext)
    (hctx : ∀ w, wxOpt = some w → w.OPENID = "") (e : Event)
    (hhdr : strStartsWith (authHeaderOf e) ("Bearer ") = false) :
    ∀ vf : String → Except Unit (Option AuthRes),
      getUserFromRequest (.ok wxOpt) vf e = none := by
  intro vf
  rw [getUserFromRequest_unusable_ctx wxOpt vf e hctx]
  exact headerIdentity_no_bearer vf e hhdr

/-- Witness for C5 amended: a Token-scheme header is treated as absent
even under a verifier that would accept any token. -/
theorem no_bearer_prefix_treated_absent_witness :
    getUserFromRequest (.ok none) (fun _ => .ok (some ⟨"userE", "userE", "appE"⟩))
      ⟨some [("authorization", "Token abc")]⟩ = none :=
  no_bearer_prefix_treated_absent none (fun w hw => by cases hw)
    ⟨some [("authorization", "Token abc")]⟩ (by decide)
    (fun _ => .ok (some ⟨"userE", "userE", "appE"⟩))

/-- C6: the checker returns false for a null or empty subjectId for
every store behavior (no store access), and when the store query
succeeds the answer is true exactly when the subjectId is statically
listed or the store holds a record for it with active status. -/
theorem isUserAuthorized_contract (storeOk : Bool) (store : List DbRec) :
    isUserAuthorized storeOk store none = false ∧
    isUserAuthorized storeOk store (some ("")) = false ∧
    (∀ oid, oid ≠ "" →
      (isUserAuthorized true store (some oid) = true ↔
        oid ∈ AUTHORIZED_USERS ∨ ∃ r ∈ store, r.openid = oid ∧ r.status = "active")) := by
  refine ⟨rfl, by unfold isUserAuthorized; simp, ?_⟩
  intro oid hne
  unfold isUserAuthorized
  simp only [if_neg hne]
  by_cases hmem : oid ∈ AUTHORIZED_USERS
  · simp [hmem, List.elem_iff]
  · have hc : AUTHORIZED_USERS.contains oid = false := by simpa using hmem
    simp [hc, hmem, queryActive, List.isEmpty_eq_false_iff_exists_mem, List.mem_filter]

/-- Witness for C6: the contract instantiated on a one-record store
holding an active userB. -/
theorem isUserAuthorized_contract_witness :
    isUserAuthorized false [⟨"userB", "active"⟩] none = false ∧
    isUserAuthorized false [⟨"userB", "active"⟩] (some ("")) = false ∧
    (isUserAuthorized true [⟨"userB", "active"⟩] (some ("userB")) = true ↔
      "userB" ∈ AUTHORIZED_USERS ∨
        ∃ r ∈ [(⟨"userB", "active"⟩ : DbRec)], r.openid = "userB" ∧ r.status = "active") :=
  ⟨(isUserAuthorized_contract false [⟨"userB", "active"⟩]).1,
   (isUserAuthorized_contract false [⟨"userB", "active"⟩]).2.1,
   (isUserAuthorized_contract false [⟨"userB", "active"⟩]).2.2 ("userB") (by decide)⟩

/-- C7: with no usable trusted context, a request whose authorization
header carries a Bearer credential the verifier rejects gets a verdict
identical to the verdict of an event carrying no authorization header
at all, namely the unresolved-identity denial: the verdict does not
reveal whether a token was attempted. -/
theorem rejected_token_verdict_eq_no_header (wxOpt : Option WxContext)
    (hctx : ∀ w, wxOpt = some w → w.OPENID = "")
    (vf : String → Except Unit (Option AuthRes)) (storeOk : Bool)
    (store : List DbRec) (e eBare : Event)
    (h1 : strStartsWith (authHeaderOf e) ("Bearer ") = true)
    (h2 : vf (strDrop (authHeaderOf e) 7) = Except.error ())
    (h3 : authHeaderOf eBare = "") :
    checkAuthorization (.ok wxOpt) vf storeOk store e =
      checkAuthorization (.ok wxOpt) vf storeOk store eBare ∧
    checkAuthorization (.ok wxOpt) vf storeOk store e =
      ⟨false, none, some unresolvedMsg⟩ := by
  have hA : getUserFromRequest (.ok wxOpt) vf e = none := by
    rw [getUserFromRequest_unusable_ctx wxOpt vf e hctx]
    exact headerIdentity_verifier_error vf e h2
  have hB : getUserFromRequest (.ok wxOpt) vf eBare = none := by
    rw [getUserFromRequest_unusable_ctx wxOpt vf eBare hctx]
    apply headerIdentity_no_bearer
    rw [h3]
    decide
  constructor
  · unfold checkAuthorization
    rw [hA, hB]
  · unfold checkAuthorization
    rw [hA]

/-- Witness for C7: a rejected Bearer token and a headerless event get
the same unresolved-identity verdict. -/
theorem rejected_token_verdict_eq_no_header_witness :
    checkAuthorization (.ok none) (fun _ => .error ()) true []
      ⟨some [("authorization", "Bearer bad")]⟩ =
      checkAuthorization (.ok none) (fun _ => .error ()) true [] ⟨none⟩ ∧
    checkAuthorization (.ok none) (fun _ => .error ()) true []
      ⟨some [("authorization", "Bearer bad")]⟩ =
      ⟨false, none, some unresolvedMsg⟩ :=
  rejected_token_verdict_eq_no_header none (fun w hw => by cases hw)
    (fun _ => .error ()) true [] ⟨some [("authorization", "Bearer bad")]⟩ ⟨none⟩
    (by decide) rfl rfl

/-- C8: the resolver never raises: for every behavior of the trusted
context accessor and of the verifier it yields an identity or null; a
throwing accessor yields null; and with an unusable context plus an
always-throwing verifier the failures collapse to null. -/
theorem getUserFromRequest_never_raises (wxRes : Except Unit (Option WxContext))
    (vf : String → Except Unit (Option AuthRes)) (e : Event) :
    (getUserFromRequest wxRes vf e = none ∨
      ∃ u, getUserFromRequest wxRes vf e = some u) ∧
    getUserFromRequest (Except.error ()) vf e = none ∧
    ((∀ w, wxRes = Except.ok (some w) → w.OPENID = "") →
      (∀ t, vf t = Except.error ()) →
      getUserFromRequest wxRes vf e = none) := by
  refine ⟨?_, rfl, ?_⟩
  · cases h : getUserFromRequest wxRes vf e with
    | none => exact Or.inl rfl
    | some u => exact Or.inr ⟨u, rfl⟩
  · intro hwx hvf
    cases wxRes with
    | error err => rfl
    | ok wxOpt =>
      rw [getUserFromRequest_unusable_ctx wxOpt vf e (fun w hw => hwx w (by rw [hw]))]
      exact headerIdentity_verifier_error vf e (hvf _)

/-- Witness for C8: an empty trusted OPENID together with a verifier
that always throws yields null on a Bearer-carrying event. -/
theorem getUserFromRequest_never_raises_witness :
    getUserFromRequest (.ok (some ⟨"", "appA"⟩)) (fun _ => .error ())
      ⟨some [("authorization", "Bearer tok1")]⟩ = none :=
  (getUserFromRequest_never_raises _ _ _).2.2
    (fun w hw => by cases hw; rfl) (fun _ => rfl)

/-- C9: a usable trusted context wins outright: the resolver returns
the identity built from it, and the result is independent of the
verifier and of the request headers, so neither is consulted even if a
Bearer token resolving to a different subject is present. -/
theorem trusted_context_authoritative (w : WxContext) (h : w.OPENID ≠ "")
    (vf vf' : String → Except Unit (Option AuthRes)) (e e' : Event) :
    getUserFromRequest (.ok (some w)) vf e = some ⟨w.OPENID, w.OPENID, w.APPID⟩ ∧
    getUserFromRequest (.ok (some w)) vf e =
      getUserFromRequest (.ok (some w)) vf' e' := by
  constructor <;> · unfold getUserFromRequest; simp [h]

/-- Witness for C9: trusted userA wins although the attached Bearer
token would verify as userB. -/
theorem trusted_context_authoritative_witness :
    getUserFromRequest (.ok (some ⟨"userA", "appA"⟩))
      (fun _ => .ok (some ⟨"userB", "userB", "appB"⟩))
      ⟨some [("authorization", "Bearer tok1")]⟩ =
      some ⟨"userA", "userA", "appA"⟩ :=
  (trusted_context_authoritative ⟨"userA", "appA"⟩ (by decide)
    (fun _ => .ok (some ⟨"userB", "userB", "appB"⟩)) (fun _ => .error ())
    ⟨some [("authorization", "Bearer tok1")]⟩ ⟨none⟩).1

/-- C10: when the checker rejects a resolved identity, the verdict's
error is exactly the interpolated message carrying the caller openid
as a substring, and the message differs between different subjects. -/
theorem denied_reason_echoes_openid (wxRes : Except Unit (Option WxContext))
    (vf : String → Except Unit (Option AuthRes)) (storeOk : Bool)
    (store : List DbRec) (e : Event) (u : Identity)
    (hu : getUserFromRequest wxRes vf e = some u)
    (hbad : isUserAuthorized storeOk store (some u.openid) = false) :
    (checkAuthorization wxRes vf storeOk store e).error =
      some (notAuthMsg u.openid) ∧
    (∃ pre post, notAuthMsg u.openid = pre ++ u.openid ++ post) ∧
    (∀ oid oid', oid ≠ oid' → notAuthMsg oid ≠ notAuthMsg oid') := by
  refine ⟨?_, ⟨"用户 ", " 未授权访问此应用", rfl⟩, notAuthMsg_inj⟩
  rw [checkAuthorization_denied_eq wxRes vf storeOk store e u hu hbad]

/-- Witness for C10: a denied trusted userC receives the message
interpolating userC. -/
theorem denied_reason_echoes_openid_witness :
    (checkAuthorization (.ok (some ⟨"userC", "appC"⟩)) (fun _ => .error ())
        true [] ⟨none⟩).error = some (notAuthMsg ("userC")) ∧
    (∃ pre post, notAuthMsg ("userC") = pre ++ "userC" ++ post) :=
  have h := denied_reason_echoes_openid (.ok (some ⟨"userC", "appC"⟩))
    (fun _ => .error ()) true [] ⟨none⟩ ⟨"userC", "userC", "appC"⟩
    (by decide) (by decide)
  ⟨h.1, h.2.1⟩
